import Mathlib

/-!
Verification of the architecture-abstraction layer of the AltOS-Rust kernel
(Cortex-M0 back end, src/arch/cm0.rs, and the critical-section guard,
src/sync/critical.rs).

Machine words are modelled as natural numbers; the word size on this target is
four bytes, so a word offset of k below a top pointer T is byte address
T - 4 * k.  Memory is a map from byte addresses to the word stored there.
-/

namespace AltOS

/-- Memory: word value stored at each (word-aligned) byte address. -/
def Mem : Type := Nat → Nat

/-- Store value v at byte address a. -/
def writeWord (m : Mem) (a v : Nat) : Mem :=
  fun x => if x = a then v else m x

/-- Read the word at byte address a. -/
def readWord (m : Mem) (a : Nat) : Nat := m a

/-- Source constant INITIAL_XPSR in initialize_stack: Thumb bit set. -/
def INITIAL_XPSR : Nat := 0x01000000

/--
Embedding of cm0.rs initialize_stack.  Arguments: exitTramp is the link-time
address of the exit_error trampoline, stackPtr the top-of-stack pointer T,
code the entry-point address, args the argument-block address, m the memory
before the call.  The source writes the xPSR word at word offset -1, the PC
at -2, the LR at -3 and R0 at -8 below T, and returns the address of word
offset -16 as the saved stack pointer.
-/
def initialize_stack (exitTramp stackPtr code args : Nat) (m : Mem) : Mem × Nat :=
  let m1 := writeWord m (stackPtr - 4) INITIAL_XPSR
  let m2 := writeWord m1 (stackPtr - 8) code
  let m3 := writeWord m2 (stackPtr - 12) exitTramp
  let m4 := writeWord m3 (stackPtr - 32) args
  (m4, stackPtr - 64)

/-- Source constant ICSR_ADDR in yield_cpu. -/
def ICSR_ADDR : Nat := 0xE000ED04

/-- Source constant PEND_SV_SET in yield_cpu: bit 28. -/
def PEND_SV_SET : Nat := 1 <<< 28

/--
Embedding of cm0.rs yield_cpu as its action on the value of the Interrupt
Control and State Register: the source read-modify-writes the register,
or-ing in the PendSV set-pending bit.
-/
def yield_cpu (icsr : Nat) : Nat := icsr ||| PEND_SV_SET

/--
Embedding of cm0.rs begin_critical as its action on the PRIMASK register
(1 = maskable interrupts disabled, 0 = enabled).  The source reads PRIMASK
into the result register, then executes cpsid i, which sets PRIMASK to 1.
Returns (token = prior PRIMASK, new PRIMASK). -/
def begin_critical (primask : Nat) : Nat × Nat := (primask, 1)

/--
Embedding of cm0.rs end_critical: the source writes the token into the
PRIMASK register unconditionally, discarding the current value. -/
def end_critical (token : Nat) (primask : Nat) : Nat :=
  let _ := primask
  token

/-- Embedding of sync/critical.rs CriticalSectionGuard: holds the token. -/
structure CriticalSectionGuard where
  token : Nat

/-- Embedding of sync/critical.rs CriticalSection (a unit marker type). -/
structure CriticalSection where

/--
Embedding of CriticalSection::begin: calls begin_critical once and stores
the returned token in the guard; also returns the updated PRIMASK value. -/
def CriticalSection.begin (primask : Nat) : CriticalSectionGuard × Nat :=
  let r := begin_critical primask
  (⟨r.1⟩, r.2)

/--
Embedding of the Drop impl for CriticalSectionGuard: calls end_critical
once with the stored token; returns the updated PRIMASK value. -/
def CriticalSectionGuard.drop (g : CriticalSectionGuard) (primask : Nat) : Nat :=
  end_critical g.token primask

/--
A nesting structure of critical sections: plain code, sequencing, and a
region guarded by a CriticalSection guard (begin on entry, drop on every
exit).  Plain code never touches PRIMASK. -/
inductive Region where
  | atom : Region
  | seq : Region → Region → Region
  | crit : Region → Region

/-- Run a region: the PRIMASK value after executing it from a given PRIMASK. -/
def runRegion : Region → Nat → Nat
  | .atom, p => p
  | .seq a b, p => runRegion b (runRegion a p)
  | .crit r, p =>
      let g := CriticalSection.begin p
      let p2 := runRegion r g.2
      g.1.drop p2

/--
The PRIMASK values observable at each piece of plain code while a region
executes from a given PRIMASK. -/
def statesIn : Region → Nat → List Nat
  | .atom, p => [p]
  | .seq a b, p => statesIn a p ++ statesIn b (runRegion a p)
  | .crit r, p => statesIn r (CriticalSection.begin p).2

theorem runRegion_id (r : Region) (p : Nat) : runRegion r p = p := by
  induction r generalizing p with
  | atom => rfl
  | seq a b iha ihb => simp [runRegion, iha, ihb]
  | crit r ih =>
      simp [runRegion, CriticalSection.begin, begin_critical,
        CriticalSectionGuard.drop, end_critical, ih]

theorem statesIn_all_one (r : Region) : ∀ s ∈ statesIn r 1, s = 1 := by
  induction r with
  | atom => intro s hs; simpa [statesIn] using hs
  | seq a b iha ihb =>
      intro s hs
      simp [statesIn, runRegion_id] at hs
      rcases hs with h | h
      · exact iha s h
      · exact ihb s h
  | crit r ih =>
      intro s hs
      simp [statesIn, CriticalSection.begin, begin_critical] at hs
      exact ih s hs

/-- Source constant MAIN_STACK in in_kernel_mode. -/
def MAIN_STACK : Nat := 0b00

/-- Source constant _PROGRAM_STACK in in_kernel_mode (bit 1 of CONTROL). -/
def PROGRAM_STACK : Nat := 0b10

/--
Embedding of cm0.rs in_kernel_mode as a function of the value read from the
CONTROL register: the source compares the whole register value with
MAIN_STACK (zero). -/
def in_kernel_mode (stack_mask : Nat) : Bool :=
  stack_mask == MAIN_STACK

/--
Modelled from the spec: which stack the CONTROL register selects.  Section
4.2 states the result of mode introspection should be true iff the main
(kernel) stack is in use; per the sources own constants (PROGRAM_STACK is
0b10) the stack-select bit of CONTROL is bit 1, so the main stack is
selected exactly when that bit is clear. -/
def mainStackSelected (control : Nat) : Bool :=
  control &&& PROGRAM_STACK == 0

/--
The numeric codes of the syscall enumeration.  The syscall module defining
the SYS_* constants is not part of the sources under verification; the
dispatch functions are parameterized over an assignment of codes. -/
structure SyscallCodes where
  SYS_EXIT : Nat
  SYS_SCHED_YIELD : Nat
  SYS_SLEEP : Nat
  SYS_SLEEP_FOR : Nat
  SYS_WAKE : Nat
  SYS_MX_LOCK : Nat
  SYS_MX_TRY_LOCK : Nat
  SYS_MX_UNLOCK : Nat
  SYS_CV_WAIT : Nat
  SYS_CV_BROADCAST : Nat

/-- The codes of the closed enumeration are pairwise distinct. -/
@[reducible] def SyscallCodes.Distinct (C : SyscallCodes) : Prop :=
  List.Pairwise (fun a b => a ≠ b)
    [C.SYS_EXIT, C.SYS_SCHED_YIELD, C.SYS_SLEEP, C.SYS_SLEEP_FOR, C.SYS_WAKE,
     C.SYS_MX_LOCK, C.SYS_MX_TRY_LOCK, C.SYS_MX_UNLOCK, C.SYS_CV_WAIT,
     C.SYS_CV_BROADCAST]

/--
The syscall handlers the dispatchers call, as abstract transformers of a
kernel state K.  Their implementations live outside the arch layer; the
mutex lock and try-lock handlers return a boolean alongside the new state,
all others return only the new state.  Pointer arguments (wait channels,
mutex and condvar addresses) are passed as numeric words, exactly as the
trampolines receive them. -/
structure Handlers (K : Type) where
  sys_exit : K → K
  sys_sched_yield : K → K
  sys_sleep : Nat → K → K
  sys_wake : Nat → K → K
  sys_mutex_lock : Nat → K → K × Bool
  sys_mutex_try_lock : Nat → K → K × Bool
  sys_mutex_unlock : Nat → K → K
  sys_condvar_broadcast : Nat → K → K
  sys_sleep_for : Nat → Nat → K → K
  sys_condvar_wait : Nat → Nat → K → K

/--
Embedding of the in-line (non supervisor-call) cm0.rs syscall0.  The source
takes a critical-section guard, matches on the call code in order (EXIT,
SCHED_YIELD), runs the handler, returns zero with the guard dropped on the
way out, and panics on any other code (the guard is also dropped during the
panic unwind; the panic aborts the kernel, modelled as an error result).
The result is (kernel state, result word, restored PRIMASK). -/
def syscall0 {K : Type} (C : SyscallCodes) (H : Handlers K) (call : Nat)
    (p : Nat) (k : K) : Except String (K × Nat × Nat) :=
  let g := CriticalSection.begin p
  if call = C.SYS_EXIT then
    Except.ok (H.sys_exit k, 0, g.1.drop g.2)
  else if call = C.SYS_SCHED_YIELD then
    Except.ok (H.sys_sched_yield k, 0, g.1.drop g.2)
  else
    Except.error ("Invalid syscall code for syscall0: " ++ toString call)

/--
Embedding of the in-line cm0.rs syscall1: match order SLEEP, WAKE, MX_LOCK,
MX_TRY_LOCK, MX_UNLOCK, CV_BROADCAST; the two lock calls return the handler
boolean widened to a word, the rest return zero; unknown codes panic. -/
def syscall1 {K : Type} (C : SyscallCodes) (H : Handlers K) (call arg1 : Nat)
    (p : Nat) (k : K) : Except String (K × Nat × Nat) :=
  let g := CriticalSection.begin p
  if call = C.SYS_SLEEP then
    Except.ok (H.sys_sleep arg1 k, 0, g.1.drop g.2)
  else if call = C.SYS_WAKE then
    Except.ok (H.sys_wake arg1 k, 0, g.1.drop g.2)
  else if call = C.SYS_MX_LOCK then
    let r := H.sys_mutex_lock arg1 k
    Except.ok (r.1, (if r.2 then 1 else 0), g.1.drop g.2)
  else if call = C.SYS_MX_TRY_LOCK then
    let r := H.sys_mutex_try_lock arg1 k
    Except.ok (r.1, (if r.2 then 1 else 0), g.1.drop g.2)
  else if call = C.SYS_MX_UNLOCK then
    Except.ok (H.sys_mutex_unlock arg1 k, 0, g.1.drop g.2)
  else if call = C.SYS_CV_BROADCAST then
    Except.ok (H.sys_condvar_broadcast arg1 k, 0, g.1.drop g.2)
  else
    Except.error ("Invalid syscall code for syscall1: " ++ toString call)

/--
Embedding of the in-line cm0.rs syscall2: match order SLEEP_FOR, CV_WAIT;
both handlers are void so the result word is zero; unknown codes panic. -/
def syscall2 {K : Type} (C : SyscallCodes) (H : Handlers K)
    (call arg1 arg2 : Nat) (p : Nat) (k : K) :
    Except String (K × Nat × Nat) :=
  let g := CriticalSection.begin p
  if call = C.SYS_SLEEP_FOR then
    Except.ok (H.sys_sleep_for arg1 arg2 k, 0, g.1.drop g.2)
  else if call = C.SYS_CV_WAIT then
    Except.ok (H.sys_condvar_wait arg1 arg2 k, 0, g.1.drop g.2)
  else
    Except.error ("Invalid syscall code for syscall2: " ++ toString call)

/--
Machine state for the bootstrap routine: memory, the process stack pointer,
the CONTROL and PRIMASK registers, the low registers the asm touches, the
link register, the program counter (where execution continues) and the
program status register. -/
structure Machine where
  mem : Nat → Nat
  psp : Nat
  control : Nat
  primask : Nat
  r0 : Nat
  r1 : Nat
  r2 : Nat
  r3 : Nat
  r4 : Nat
  r5 : Nat
  lr : Nat
  pc : Nat
  xpsr : Nat

/--
Embedding of the cm0.rs start_first_task assembly sequence, instruction by
instruction.  curTask is the address of the CURRENT_TASK global.  The
routine loads the current task pointer, reads its first word (the saved
stack pointer), skips the eight software-saved words (adds 32), switches to
the process stack (CONTROL := 2), pops R0-R5 (the hardware frame words R0,
R1, R2, R3, R12, LR), moves the popped LR value into lr, pops the return
address, pops and discards the xPSR word (into r2; the xPSR register is not
written), enables interrupts (PRIMASK := 0) and branches to the popped
return address.  The routine ends in the branch: execution continues at the
resulting pc and never returns to the caller. -/
def start_first_task (curTask : Nat) (m : Machine) : Machine :=
  let r2 := curTask
  let r3 := m.mem r2
  let r0 := m.mem r3
  let r0 := r0 + 32
  let psp := r0
  let r0 := 2
  let control := r0
  let r0 := m.mem psp
  let r1 := m.mem (psp + 4)
  let r2 := m.mem (psp + 8)
  let r3 := m.mem (psp + 12)
  let r4 := m.mem (psp + 16)
  let r5 := m.mem (psp + 20)
  let psp := psp + 24
  let lr := r5
  let r3 := m.mem psp
  let psp := psp + 4
  let r2 := m.mem psp
  let psp := psp + 4
  let primask := 0
  { m with
    psp := psp
    control := control
    primask := primask
    r0 := r0
    r1 := r1
    r2 := r2
    r3 := r3
    r4 := r4
    r5 := r5
    lr := lr
    pc := r3 }

/--
Sample assignment of syscall codes used to instantiate the dispatch
theorems on concrete inputs (the enumeration order of section 3 of the
design document, numbered from zero). -/
def sampleCodes : SyscallCodes :=
  ⟨0, 1, 2, 3, 4, 5, 6, 7, 8, 9⟩

/--
Sample handlers over a numeric kernel state, used to instantiate the
dispatch theorems on concrete inputs. -/
def sampleHandlers : Handlers Nat where
  sys_exit := fun k => k + 100
  sys_sched_yield := fun k => k + 101
  sys_sleep := fun a k => k + a + 102
  sys_wake := fun a k => k + a + 103
  sys_mutex_lock := fun a k => (k + a + 104, true)
  sys_mutex_try_lock := fun a k => (k + a + 105, false)
  sys_mutex_unlock := fun a k => k + a + 106
  sys_condvar_broadcast := fun a k => k + a + 107
  sys_sleep_for := fun a b k => k + a + b + 108
  sys_condvar_wait := fun a b k => k + a + b + 109

/-- C1: For every word-aligned top pointer T, entry F and argument block A,
initialize_stack writes the initial xPSR word 0x01000000 at word offset -1
below T, the entry address at offset -2, the exit-trampoline address at
offset -3 and the argument-block address at offset -8, and returns the
address of word offset -16 as the saved stack pointer. -/
theorem initialize_stack_primes_frame (exitTramp T F A : Nat) (m : Mem)
    (hword : T % 4 = 0) (h64 : 64 ≤ T) :
    (initialize_stack exitTramp T F A m).2 = T - 64 ∧
    (initialize_stack exitTramp T F A m).1 (T - 4) = 0x01000000 ∧
    (initialize_stack exitTramp T F A m).1 (T - 8) = F ∧
    (initialize_stack exitTramp T F A m).1 (T - 12) = exitTramp ∧
    (initialize_stack exitTramp T F A m).1 (T - 32) = A := by
  have h1 : ¬(T - 4 = T - 32) := by omega
  have h2 : ¬(T - 4 = T - 12) := by omega
  have h3 : ¬(T - 4 = T - 8) := by omega
  have h4 : ¬(T - 8 = T - 32) := by omega
  have h5 : ¬(T - 8 = T - 12) := by omega
  have h6 : ¬(T - 12 = T - 32) := by omega
  refine ⟨rfl, ?_, ?_, ?_, ?_⟩ <;>
    simp [initialize_stack, writeWord, INITIAL_XPSR, h1, h2, h3, h4, h5, h6]

/-- C1 witness: the concrete scenario of the design document, with top
pointer 0x20001000, entry 0x08001234 and argument block 0x20000080. -/
theorem initialize_stack_primes_frame_witness :
    (0x20001000 : Nat) % 4 = 0 ∧ (64 : Nat) ≤ 0x20001000 ∧
    ((initialize_stack 0x08000100 0x20001000 0x08001234 0x20000080
        (fun _ => 0)).2 = 0x20001000 - 64 ∧
     (initialize_stack 0x08000100 0x20001000 0x08001234 0x20000080
        (fun _ => 0)).1 (0x20001000 - 4) = 0x01000000 ∧
     (initialize_stack 0x08000100 0x20001000 0x08001234 0x20000080
        (fun _ => 0)).1 (0x20001000 - 8) = 0x08001234 ∧
     (initialize_stack 0x08000100 0x20001000 0x08001234 0x20000080
        (fun _ => 0)).1 (0x20001000 - 12) = 0x08000100 ∧
     (initialize_stack 0x08000100 0x20001000 0x08001234 0x20000080
        (fun _ => 0)).1 (0x20001000 - 32) = 0x20000080) :=
  ⟨by decide, by decide,
   initialize_stack_primes_frame 0x08000100 0x20001000 0x08001234 0x20000080
     (fun _ => 0) (by decide) (by decide)⟩

/-- C5 counterexample: in the concrete scenario the word 7 slots above the
returned saved stack pointer (byte offset 28) is a software-saved slot left
untouched by priming, so it does not hold the argument-block address; the
argument-block address sits at word 8. -/
theorem initialize_stack_word7_not_args :
    ¬((initialize_stack 0x08000100 0x20001000 0x08001234 0x20000080
        (fun _ => 0)).1
      ((initialize_stack 0x08000100 0x20001000 0x08001234 0x20000080
        (fun _ => 0)).2 + 7 * 4) = 0x20000080) := by
  decide

/-- C5 (amended): after initialize_stack returns S, word 8 above S (the R0
slot) holds the argument-block address, word 13 the exit-trampoline
address, word 14 the entry point and word 15 the initial xPSR value. -/
theorem initialize_stack_word_layout (exitTramp T F A : Nat) (m : Mem)
    (h64 : 64 ≤ T) :
    (initialize_stack exitTramp T F A m).1
      ((initialize_stack exitTramp T F A m).2 + 8 * 4) = A ∧
    (initialize_stack exitTramp T F A m).1
      ((initialize_stack exitTramp T F A m).2 + 13 * 4) = exitTramp ∧
    (initialize_stack exitTramp T F A m).1
      ((initialize_stack exitTramp T F A m).2 + 14 * 4) = F ∧
    (initialize_stack exitTramp T F A m).1
      ((initialize_stack exitTramp T F A m).2 + 15 * 4) = 0x01000000 := by
  have e8 : T - 64 + 8 * 4 = T - 32 := by omega
  have e13 : T - 64 + 13 * 4 = T - 12 := by omega
  have e14 : T - 64 + 14 * 4 = T - 8 := by omega
  have e15 : T - 64 + 15 * 4 = T - 4 := by omega
  have h1 : ¬(T - 4 = T - 32) := by omega
  have h2 : ¬(T - 4 = T - 12) := by omega
  have h3 : ¬(T - 4 = T - 8) := by omega
  have h4 : ¬(T - 8 = T - 32) := by omega
  have h5 : ¬(T - 8 = T - 12) := by omega
  have h6 : ¬(T - 12 = T - 32) := by omega
  refine ⟨?_, ?_, ?_, ?_⟩ <;>
    simp [initialize_stack, writeWord, INITIAL_XPSR,
      e8, e13, e14, e15, h1, h2, h3, h4, h5, h6]

/-- C5 witness: the amended layout at the concrete scenario inputs. -/
theorem initialize_stack_word_layout_witness :
    (64 : Nat) ≤ 0x20001000 ∧
    ((initialize_stack 0x08000100 0x20001000 0x08001234 0x20000080
        (fun _ => 0)).1
      ((initialize_stack 0x08000100 0x20001000 0x08001234 0x20000080
        (fun _ => 0)).2 + 8 * 4) = 0x20000080 ∧
     (initialize_stack 0x08000100 0x20001000 0x08001234 0x20000080
        (fun _ => 0)).1
      ((initialize_stack 0x08000100 0x20001000 0x08001234 0x20000080
        (fun _ => 0)).2 + 13 * 4) = 0x08000100 ∧
     (initialize_stack 0x08000100 0x20001000 0x08001234 0x20000080
        (fun _ => 0)).1
      ((initialize_stack 0x08000100 0x20001000 0x08001234 0x20000080
        (fun _ => 0)).2 + 14 * 4) = 0x08001234 ∧
     (initialize_stack 0x08000100 0x20001000 0x08001234 0x20000080
        (fun _ => 0)).1
      ((initialize_stack 0x08000100 0x20001000 0x08001234 0x20000080
        (fun _ => 0)).2 + 15 * 4) = 0x01000000) :=
  ⟨by decide,
   initialize_stack_word_layout 0x08000100 0x20001000 0x08001234 0x20000080
     (fun _ => 0) (by decide)⟩

/-- C10: initialize_stack writes only the words at offsets -1, -2, -3 and
-8 below the top pointer; every other address, including the slots at
offsets -4..-7 and -9..-16 and all memory outside the frame, keeps its
prior contents. -/
theorem initialize_stack_frame_effect (exitTramp T F A a : Nat) (m : Mem)
    (h1 : a ≠ T - 4) (h2 : a ≠ T - 8) (h3 : a ≠ T - 12) (h4 : a ≠ T - 32) :
    (initialize_stack exitTramp T F A m).1 a = m a := by
  simp [initialize_stack, writeWord, h1, h2, h3, h4]

/-- C10 witness: the word at offset -4 below the concrete top pointer (a
slot of the hardware frame not primed) keeps its prior contents. -/
theorem initialize_stack_frame_effect_witness :
    (0x20001000 - 16 : Nat) ≠ 0x20001000 - 4 ∧
    (0x20001000 - 16 : Nat) ≠ 0x20001000 - 8 ∧
    (0x20001000 - 16 : Nat) ≠ 0x20001000 - 12 ∧
    (0x20001000 - 16 : Nat) ≠ 0x20001000 - 32 ∧
    (initialize_stack 0x08000100 0x20001000 0x08001234 0x20000080
      (fun x => x + 1)).1 (0x20001000 - 16) = 0x20001000 - 16 + 1 :=
  ⟨by decide, by decide, by decide, by decide,
   initialize_stack_frame_effect 0x08000100 0x20001000 0x08001234 0x20000080
     (0x20001000 - 16) (fun x => x + 1)
     (by decide) (by decide) (by decide) (by decide)⟩

/-- C2: begin_critical returns the prior PRIMASK state and disables
maskable interrupts; end_critical with the token of the matching
begin_critical restores exactly the captured state; in every properly
nested arrangement of guarded regions, PRIMASK reads 1 (disabled) at every
point inside the outermost region, an inner release leaves it at 1, and
the outermost release restores the original state. -/
theorem critical_section_nesting (p q s : Nat) (r : Region)
    (hs : s ∈ statesIn r 1) :
    begin_critical p = (p, 1) ∧
    end_critical (begin_critical p).1 q = p ∧
    s = 1 ∧
    runRegion r 1 = 1 ∧
    runRegion (Region.crit r) p = p :=
  ⟨rfl, rfl, statesIn_all_one r s hs, runRegion_id r 1,
   runRegion_id (Region.crit r) p⟩

/-- C2 witness: a doubly nested critical region entered with interrupts
enabled, observing the disabled state inside and the restored state after
the outermost release. -/
theorem critical_section_nesting_witness :
    (1 : Nat) ∈ statesIn (Region.crit Region.atom) 1 ∧
    (begin_critical 0 = (0, 1) ∧
     end_critical (begin_critical 0).1 5 = 0 ∧
     (1 : Nat) = 1 ∧
     runRegion (Region.crit Region.atom) 1 = 1 ∧
     runRegion (Region.crit (Region.crit Region.atom)) 0 = 0) :=
  ⟨by decide, critical_section_nesting 0 5 1 (Region.crit Region.atom)
    (by decide)⟩

/-- C7: CriticalSection.begin calls begin_critical and stores exactly the
returned token in the guard; dropping the guard calls end_critical with
exactly that stored token, so a begin followed by the drop of its guard
restores the PRIMASK state begin_critical captured. -/
theorem critical_guard_pairing (p q : Nat) (g : CriticalSectionGuard) :
    (CriticalSection.begin p).1.token = (begin_critical p).1 ∧
    g.drop q = end_critical g.token q ∧
    (CriticalSection.begin p).1.drop ((CriticalSection.begin p).2) = p :=
  ⟨rfl, rfl, rfl⟩

/-- C6 counterexample: for CONTROL value 1 (main stack selected, nPRIV bit
set) the main stack is selected yet in_kernel_mode reports false, because
the source compares the whole register with zero rather than the
stack-select bit. -/
theorem in_kernel_mode_control_one :
    mainStackSelected 1 = true ∧ in_kernel_mode 1 = false := by
  decide

/-- C6 (amended): in_kernel_mode returns true iff the whole CONTROL value
is zero; this coincides with the main stack being selected for every
CONTROL value whose nPRIV bit is clear and whose reserved bits are zero,
which are exactly the values this kernel produces (0 and 2). -/
theorem in_kernel_mode_stack_select (control : Nat)
    (hpriv : control % 2 = 0) (hres : control < 4) :
    in_kernel_mode control = mainStackSelected control := by
  have h : control = 0 ∨ control = 2 := by omega
  rcases h with h | h <;> subst h <;> decide

/-- C6 witness: the CONTROL value 2, installed by the bootstrap routine,
selects the process stack and in_kernel_mode reports false. -/
theorem in_kernel_mode_stack_select_witness :
    (2 : Nat) % 2 = 0 ∧ (2 : Nat) < 4 ∧
    in_kernel_mode 2 = mainStackSelected 2 :=
  ⟨by decide, by decide, in_kernel_mode_stack_select 2 (by decide) (by decide)⟩

/-- C9: yield_cpu sets bit 28 (the PendSV set-pending bit) of the value of
the Interrupt Control and State Register, and iterating yield_cpu any
number of times at least one leaves the register in the same state as a
single invocation. -/
theorem yield_cpu_pending_idempotent (icsr k : Nat) (hk : 1 ≤ k) :
    Nat.testBit (yield_cpu icsr) 28 = true ∧
    yield_cpu^[k] icsr = yield_cpu icsr := by
  constructor
  · have hbit : Nat.testBit PEND_SV_SET 28 = true := by decide
    simp [yield_cpu, Nat.testBit_or, hbit]
  · obtain ⟨j, rfl⟩ := Nat.exists_eq_add_of_le hk
    rw [Nat.add_comm, Function.iterate_add_apply, Function.iterate_one]
    exact Function.iterate_fixed
      (by simp [yield_cpu, Nat.or_assoc, Nat.or_self]) j

/-- C9 witness: from a clear register, two invocations leave the register
in the state a single invocation produces, with the pending bit set. -/
theorem yield_cpu_pending_idempotent_witness :
    (1 : Nat) ≤ 2 ∧
    (Nat.testBit (yield_cpu 0) 28 = true ∧
     yield_cpu^[2] 0 = yield_cpu 0) :=
  ⟨by decide, yield_cpu_pending_idempotent 0 2 (by decide)⟩

/-- C3: in in-line mode, for every code of each arity the trampoline runs
the corresponding handler exactly once on the given arguments and kernel
state and returns its word result unchanged: the two lock calls return the
handler boolean widened to a word, every void-returning call returns zero,
and the critical-section guard restores the incoming PRIMASK state. -/
theorem syscall_dispatch_inline {K : Type} (C : SyscallCodes) (H : Handlers K)
    (p a b : Nat) (st : K) (hd : C.Distinct) :
    syscall0 C H C.SYS_EXIT p st = Except.ok (H.sys_exit st, 0, p) ∧
    syscall0 C H C.SYS_SCHED_YIELD p st =
      Except.ok (H.sys_sched_yield st, 0, p) ∧
    syscall1 C H C.SYS_SLEEP a p st = Except.ok (H.sys_sleep a st, 0, p) ∧
    syscall1 C H C.SYS_WAKE a p st = Except.ok (H.sys_wake a st, 0, p) ∧
    syscall1 C H C.SYS_MX_LOCK a p st =
      Except.ok ((H.sys_mutex_lock a st).1,
        (if (H.sys_mutex_lock a st).2 then 1 else 0), p) ∧
    syscall1 C H C.SYS_MX_TRY_LOCK a p st =
      Except.ok ((H.sys_mutex_try_lock a st).1,
        (if (H.sys_mutex_try_lock a st).2 then 1 else 0), p) ∧
    syscall1 C H C.SYS_MX_UNLOCK a p st =
      Except.ok (H.sys_mutex_unlock a st, 0, p) ∧
    syscall1 C H C.SYS_CV_BROADCAST a p st =
      Except.ok (H.sys_condvar_broadcast a st, 0, p) ∧
    syscall2 C H C.SYS_SLEEP_FOR a b p st =
      Except.ok (H.sys_sleep_for a b st, 0, p) ∧
    syscall2 C H C.SYS_CV_WAIT a b p st =
      Except.ok (H.sys_condvar_wait a b st, 0, p) := by
  simp [SyscallCodes.Distinct, List.pairwise_cons] at hd
  obtain ⟨⟨h12, h13, h14, h15, h16, h17, h18, h19, h1A⟩,
    ⟨h23, h24, h25, h26, h27, h28, h29, h2A⟩,
    ⟨h34, h35, h36, h37, h38, h39, h3A⟩,
    ⟨h45, h46, h47, h48, h49, h4A⟩,
    ⟨h56, h57, h58, h59, h5A⟩,
    ⟨h67, h68, h69, h6A⟩,
    ⟨h78, h79, h7A⟩,
    ⟨h89, h8A⟩, h9A⟩ := hd
  refine ⟨?_, ?_, ?_, ?_, ?_, ?_, ?_, ?_, ?_, ?_⟩ <;>
    simp [syscall0, syscall1, syscall2, CriticalSection.begin,
      begin_critical, CriticalSectionGuard.drop, end_critical,
      Ne.symm h12, Ne.symm h35, Ne.symm h36, Ne.symm h56, Ne.symm h37,
      Ne.symm h57, Ne.symm h67, Ne.symm h38, Ne.symm h58, Ne.symm h68,
      Ne.symm h78, Ne.symm h3A, Ne.symm h5A, Ne.symm h6A, Ne.symm h7A,
      Ne.symm h8A, Ne.symm h49]

/-- C3 witness: the dispatch equations at a sample distinct code
assignment, sample handlers over a numeric kernel state, argument words 10
and 20, kernel state 0 and PRIMASK 0. -/
theorem syscall_dispatch_inline_witness :
    sampleCodes.Distinct ∧
    (syscall0 sampleCodes sampleHandlers sampleCodes.SYS_EXIT 0 0 =
      Except.ok (sampleHandlers.sys_exit 0, 0, 0) ∧
     syscall0 sampleCodes sampleHandlers sampleCodes.SYS_SCHED_YIELD 0 0 =
      Except.ok (sampleHandlers.sys_sched_yield 0, 0, 0) ∧
     syscall1 sampleCodes sampleHandlers sampleCodes.SYS_SLEEP 10 0 0 =
      Except.ok (sampleHandlers.sys_sleep 10 0, 0, 0) ∧
     syscall1 sampleCodes sampleHandlers sampleCodes.SYS_WAKE 10 0 0 =
      Except.ok (sampleHandlers.sys_wake 10 0, 0, 0) ∧
     syscall1 sampleCodes sampleHandlers sampleCodes.SYS_MX_LOCK 10 0 0 =
      Except.ok ((sampleHandlers.sys_mutex_lock 10 0).1,
        (if (sampleHandlers.sys_mutex_lock 10 0).2 then 1 else 0), 0) ∧
     syscall1 sampleCodes sampleHandlers sampleCodes.SYS_MX_TRY_LOCK 10 0 0 =
      Except.ok ((sampleHandlers.sys_mutex_try_lock 10 0).1,
        (if (sampleHandlers.sys_mutex_try_lock 10 0).2 then 1 else 0), 0) ∧
     syscall1 sampleCodes sampleHandlers sampleCodes.SYS_MX_UNLOCK 10 0 0 =
      Except.ok (sampleHandlers.sys_mutex_unlock 10 0, 0, 0) ∧
     syscall1 sampleCodes sampleHandlers sampleCodes.SYS_CV_BROADCAST 10 0 0 =
      Except.ok (sampleHandlers.sys_condvar_broadcast 10 0, 0, 0) ∧
     syscall2 sampleCodes sampleHandlers sampleCodes.SYS_SLEEP_FOR 10 20 0 0 =
      Except.ok (sampleHandlers.sys_sleep_for 10 20 0, 0, 0) ∧
     syscall2 sampleCodes sampleHandlers sampleCodes.SYS_CV_WAIT 10 20 0 0 =
      Except.ok (sampleHandlers.sys_condvar_wait 10 20 0, 0, 0)) :=
  ⟨by decide,
   syscall_dispatch_inline sampleCodes sampleHandlers 0 10 20 0 (by decide)⟩

/-- C4: in in-line mode each trampoline panics (aborting the kernel,
modelled as an error result) on every call code outside its own match
arms, which covers both codes outside the enumeration and codes of the
enumeration that belong to a different arity. -/
theorem syscall_unknown_code_panics {K : Type} (C : SyscallCodes)
    (H : Handlers K) (call a b p : Nat) (st : K) :
    (call ≠ C.SYS_EXIT → call ≠ C.SYS_SCHED_YIELD →
      syscall0 C H call p st =
        Except.error ("Invalid syscall code for syscall0: " ++
          toString call)) ∧
    (call ≠ C.SYS_SLEEP → call ≠ C.SYS_WAKE → call ≠ C.SYS_MX_LOCK →
      call ≠ C.SYS_MX_TRY_LOCK → call ≠ C.SYS_MX_UNLOCK →
      call ≠ C.SYS_CV_BROADCAST →
      syscall1 C H call a p st =
        Except.error ("Invalid syscall code for syscall1: " ++
          toString call)) ∧
    (call ≠ C.SYS_SLEEP_FOR → call ≠ C.SYS_CV_WAIT →
      syscall2 C H call a b p st =
        Except.error ("Invalid syscall code for syscall2: " ++
          toString call)) := by
  refine ⟨fun h0 h1 => ?_, fun h2 h3 h4 h5 h6 h7 => ?_, fun h8 h9 => ?_⟩
  · simp [syscall0, h0, h1]
  · simp [syscall1, h2, h3, h4, h5, h6, h7]
  · simp [syscall2, h8, h9]

/-- C4 witness: the unknown code 99 aborts all three trampolines, and the
code assigned to SLEEP (an arity-1 call) aborts the arity-0 trampoline. -/
theorem syscall_unknown_code_panics_witness :
    (syscall0 sampleCodes sampleHandlers 99 0 0 =
      Except.error ("Invalid syscall code for syscall0: " ++ toString 99) ∧
     syscall1 sampleCodes sampleHandlers 99 10 0 0 =
      Except.error ("Invalid syscall code for syscall1: " ++ toString 99) ∧
     syscall2 sampleCodes sampleHandlers 99 10 20 0 0 =
      Except.error ("Invalid syscall code for syscall2: " ++ toString 99)) ∧
    syscall0 sampleCodes sampleHandlers sampleCodes.SYS_SLEEP 0 0 =
      Except.error ("Invalid syscall code for syscall0: " ++
        toString sampleCodes.SYS_SLEEP) :=
  ⟨⟨(syscall_unknown_code_panics sampleCodes sampleHandlers 99 10 20 0 0).1
      (by decide) (by decide),
    (syscall_unknown_code_panics sampleCodes sampleHandlers 99 10 20 0 0).2.1
      (by decide) (by decide) (by decide) (by decide) (by decide) (by decide),
    (syscall_unknown_code_panics sampleCodes sampleHandlers 99 10 20 0 0).2.2
      (by decide) (by decide)⟩,
   (syscall_unknown_code_panics sampleCodes sampleHandlers
      sampleCodes.SYS_SLEEP 10 20 0 0).1 (by decide) (by decide)⟩

/-- C8: under the precondition that the current-task slot holds a non-null
task pointer whose first word is the saved stack pointer of a task primed
below top pointer T, the bootstrap routine switches the CPU to the process
stack (CONTROL becomes 2), consumes the whole 16-word frame (the process
stack pointer ends at T), enables interrupts (PRIMASK becomes 0), restores
the frame R0 slot into r0 and the LR slot into lr, discards the xPSR word
(the xPSR register is untouched) and branches to the frame PC slot, the
task entry point: execution continues at the entry point and control never
comes back to the caller. -/
theorem start_first_task_launches (curTask taskPtr T F A exitTramp : Nat)
    (M : Machine)
    (h64 : 64 ≤ T)
    (hnn : taskPtr ≠ 0)
    (htask : M.mem curTask = taskPtr)
    (hsp : M.mem taskPtr = T - 64)
    (hr0 : M.mem (T - 32) = A)
    (hlr : M.mem (T - 12) = exitTramp)
    (hpc : M.mem (T - 8) = F)
    (hx : M.mem (T - 4) = INITIAL_XPSR) :
    (start_first_task curTask M).control = 2 ∧
    (start_first_task curTask M).primask = 0 ∧
    (start_first_task curTask M).psp = T ∧
    (start_first_task curTask M).pc = F ∧
    (start_first_task curTask M).r0 = A ∧
    (start_first_task curTask M).lr = exitTramp ∧
    (start_first_task curTask M).xpsr = M.xpsr := by
  have e1 : T - 64 + 32 = T - 32 := by omega
  have e2 : T - 32 + 20 = T - 12 := by omega
  have e3 : T - 32 + 24 = T - 8 := by omega
  have e4 : T - 8 + 4 = T - 4 := by omega
  have e5 : T - 4 + 4 = T := by omega
  simp [start_first_task, htask, hsp, e1, e2, e3, e4, e5, hr0, hlr, hpc, hx]

/-- Concrete memory for the bootstrap witness: a frame primed below top
pointer 0x20001000, the current-task slot at 0x20000000 pointing at the
task record at 0x20000010, whose first word is the saved stack pointer. -/
def sampleBootMem : Mem :=
  writeWord (writeWord (writeWord (writeWord (writeWord (writeWord
    (fun _ => 0)
    (0x20001000 - 4) INITIAL_XPSR)
    (0x20001000 - 8) 0x08001234)
    (0x20001000 - 12) 0x08000100)
    (0x20001000 - 32) 0x20000080)
    0x20000000 0x20000010)
    0x20000010 (0x20001000 - 64)

/-- Concrete machine for the bootstrap witness, still on the main stack
with interrupts disabled. -/
def sampleBootMachine : Machine where
  mem := sampleBootMem
  psp := 0
  control := 0
  primask := 1
  r0 := 0
  r1 := 0
  r2 := 0
  r3 := 0
  r4 := 0
  r5 := 0
  lr := 0
  pc := 0
  xpsr := 7

/-- C8 witness: the bootstrap routine run on the concrete primed machine
launches the task at 0x08001234 with argument block 0x20000080 on the
process stack with interrupts enabled. -/
theorem start_first_task_launches_witness :
    (64 : Nat) ≤ 0x20001000 ∧
    (0x20000010 : Nat) ≠ 0 ∧
    sampleBootMachine.mem 0x20000000 = 0x20000010 ∧
    sampleBootMachine.mem 0x20000010 = 0x20001000 - 64 ∧
    sampleBootMachine.mem (0x20001000 - 32) = 0x20000080 ∧
    sampleBootMachine.mem (0x20001000 - 12) = 0x08000100 ∧
    sampleBootMachine.mem (0x20001000 - 8) = 0x08001234 ∧
    sampleBootMachine.mem (0x20001000 - 4) = INITIAL_XPSR ∧
    ((start_first_task 0x20000000 sampleBootMachine).control = 2 ∧
     (start_first_task 0x20000000 sampleBootMachine).primask = 0 ∧
     (start_first_task 0x20000000 sampleBootMachine).psp = 0x20001000 ∧
     (start_first_task 0x20000000 sampleBootMachine).pc = 0x08001234 ∧
     (start_first_task 0x20000000 sampleBootMachine).r0 = 0x20000080 ∧
     (start_first_task 0x20000000 sampleBootMachine).lr = 0x08000100 ∧
     (start_first_task 0x20000000 sampleBootMachine).xpsr =
       sampleBootMachine.xpsr) :=
  ⟨by decide, by decide, by decide, by decide, by decide, by decide,
   by decide, by decide,
   start_first_task_launches 0x20000000 0x20000010 0x20001000 0x08001234
     0x20000080 0x08000100 sampleBootMachine (by decide) (by decide)
     (by decide) (by decide) (by decide) (by decide) (by decide) (by decide)⟩

end AltOS
